import Mathlib

/-! Verification of the identity resolution and propagation engine
(event-tracking backend: tiered visitor matching, session handling,
identify propagation, tenant partitioning, identity cache).

The definitions below are a shallow embedding of the JavaScript source:
`server.js` (the matcher `findExistingIdentity` and the init, track and
identify endpoints), `services/db-utils.js` (identity cache, session
validation, identity update) and `services/fingerprint.js`
(`verifyVisitorId`).  JSON documents are modelled as opaque strings,
JS numbers as rationals, timestamps as naturals (milliseconds).
-/

namespace EventTracking

/-- Browser signature: browser name plus operating system. -/
structure BrowserDetails where
  browserName : String
  os : String
deriving DecidableEq

/-- One row of the per-tenant identity_mappings table. -/
structure IdentityRow where
  visitor_id : String
  ip_address : String
  browser_details : Option BrowserDetails
  confidence_score : Option Rat
  first_seen_at : Nat
  last_seen_at : Nat
  geolocation : Option String
  identification_method : String
  identity : Option String
deriving DecidableEq

/-- One row of the per-tenant session_mappings table.  The created_at
column appears in the db-utils validation query. -/
structure SessionRow where
  session_id : String
  visitor_id : String
  ip_address : String
  browser_details : Option BrowserDetails
  confidence_score : Option Rat
  identification_method : String
  created_at : Nat
deriving DecidableEq

/-- One row of the per-tenant events table. -/
structure EventRow where
  session_id : String
  visitor_id : String
  event_name : String
  properties : String
  identity : Option String
  ip_address : String
  browser_details : Option BrowserDetails
  confidence_score : Option Rat
  identification_method : String
  geolocation : Option String
deriving DecidableEq

/-- One tenant partition of the store (one schema). -/
structure TenantDb where
  identity_mappings : List IdentityRow
  session_mappings : List SessionRow
  events : List EventRow
deriving DecidableEq

/-- JS `x || d` on a nullable number: null, undefined and 0 are falsy. -/
def jsNumOr (x : Option Rat) (d : Rat) : Rat :=
  match x with
  | none => d
  | some v => if v = 0 then d else v

/-- JS `x || d` on a nullable timestamp. -/
def jsNatOr (x : Option Nat) (d : Nat) : Nat :=
  match x with
  | none => d
  | some v => if v = 0 then d else v

/-- JS `x || y` where both sides are nullable numbers (used for the
event confidence column). -/
def jsOrOpt (x : Option Rat) (y : Option Rat) : Option Rat :=
  match x with
  | none => y
  | some v => if v = 0 then y else some v

/-- Insert one row into a list kept sorted by last_seen_at descending. -/
def insertByLastSeenDesc (r : IdentityRow) : List IdentityRow → List IdentityRow
  | [] => [r]
  | x :: xs =>
    if x.last_seen_at < r.last_seen_at then r :: x :: xs
    else x :: insertByLastSeenDesc r xs

/-- ORDER BY last_seen_at DESC, as insertion sort. -/
def sortByLastSeenDesc : List IdentityRow → List IdentityRow
  | [] => []
  | x :: xs => insertByLastSeenDesc x (sortByLastSeenDesc xs)

theorem mem_insertByLastSeenDesc {a r : IdentityRow} {l : List IdentityRow} :
    a ∈ insertByLastSeenDesc r l ↔ a = r ∨ a ∈ l := by
  induction l with
  | nil => simp [insertByLastSeenDesc]
  | cons x xs ih =>
    simp only [insertByLastSeenDesc]
    split
    · simp [List.mem_cons]
    · simp only [List.mem_cons, ih]
      tauto

theorem mem_sortByLastSeenDesc {a : IdentityRow} {l : List IdentityRow} :
    a ∈ sortByLastSeenDesc l ↔ a ∈ l := by
  induction l with
  | nil => simp [sortByLastSeenDesc]
  | cons x xs ih =>
    simp only [sortByLastSeenDesc, mem_insertByLastSeenDesc, List.mem_cons, ih]

theorem insertByLastSeenDesc_ne_nil (r : IdentityRow) (l : List IdentityRow) :
    insertByLastSeenDesc r l ≠ [] := by
  cases l with
  | nil => simp [insertByLastSeenDesc]
  | cons x xs =>
    simp only [insertByLastSeenDesc]
    split <;> simp

theorem sortByLastSeenDesc_eq_nil_iff {l : List IdentityRow} :
    sortByLastSeenDesc l = [] ↔ l = [] := by
  cases l with
  | nil => simp [sortByLastSeenDesc]
  | cons x xs =>
    simp only [sortByLastSeenDesc]
    constructor
    · intro h; exact absurd h (insertByLastSeenDesc_ne_nil _ _)
    · intro h; cases h

/-- Descending order on rows by last_seen_at. -/
def rowGe (a b : IdentityRow) : Prop := b.last_seen_at ≤ a.last_seen_at

theorem pairwise_insertByLastSeenDesc {r : IdentityRow} {l : List IdentityRow}
    (h : l.Pairwise rowGe) : (insertByLastSeenDesc r l).Pairwise rowGe := by
  induction l with
  | nil => simp [insertByLastSeenDesc, List.pairwise_cons]
  | cons x xs ih =>
    rw [List.pairwise_cons] at h
    simp only [insertByLastSeenDesc]
    split
    · rename_i hlt
      rw [List.pairwise_cons]
      constructor
      · intro b hb
        rcases List.mem_cons.mp hb with hb | hb
        · subst hb; exact le_of_lt hlt
        · exact le_trans (h.1 b hb) (le_of_lt hlt)
      · rw [List.pairwise_cons]; exact h
    · rename_i hge
      rw [List.pairwise_cons]
      constructor
      · intro b hb
        rcases mem_insertByLastSeenDesc.mp hb with hb | hb
        · subst hb; exact Nat.le_of_not_lt hge
        · exact h.1 b hb
      · exact ih h.2

theorem pairwise_sortByLastSeenDesc (l : List IdentityRow) :
    (sortByLastSeenDesc l).Pairwise rowGe := by
  induction l with
  | nil => simp [sortByLastSeenDesc]
  | cons x xs ih => exact pairwise_insertByLastSeenDesc ih

theorem pairwise_head_max {x : IdentityRow} {xs : List IdentityRow}
    (h : (x :: xs).Pairwise rowGe) :
    ∀ a ∈ x :: xs, a.last_seen_at ≤ x.last_seen_at := by
  intro a ha
  rcases List.mem_cons.mp ha with ha | ha
  · subst ha; exact le_refl _
  · exact (List.pairwise_cons.mp h).1 a ha

/-- The browser-correlation test of the matcher loop: the row has a
non-null browser_details whose browserName and os equal the callers. -/
def matchesSig (r : IdentityRow) (bd : BrowserDetails) : Bool :=
  match r.browser_details with
  | some rb => decide (rb.browserName = bd.browserName) && decide (rb.os = bd.os)
  | none => false

/-- A `find?` hit on a list sorted descending by last_seen_at is maximal
among all hits. -/
theorem find_matchesSig_maximal (bd : BrowserDetails) :
    ∀ l : List IdentityRow, l.Pairwise rowGe →
    ∀ r, l.find? (fun x => matchesSig x bd) = some r →
    ∀ x ∈ l, matchesSig x bd = true → x.last_seen_at ≤ r.last_seen_at := by
  intro l
  induction l with
  | nil => intro _ r h; simp [List.find?] at h
  | cons a as ih =>
    intro hp r hfind x hx hsig
    rw [List.find?_cons] at hfind
    by_cases ha : matchesSig a bd = true
    · rw [ha] at hfind
      simp only [cond_true, Option.some.injEq] at hfind
      subst hfind
      exact pairwise_head_max hp x hx
    · rw [Bool.eq_false_iff.mpr ha] at hfind
      simp only [cond_false] at hfind
      rcases List.mem_cons.mp hx with hx | hx
      · subst hx; exact absurd hsig ha
      · exact ih (List.pairwise_cons.mp hp).2 r hfind x hx hsig

/-- The rows of identity_mappings whose visitor_id equals the given one,
most recent first (the tier-1 SELECT). -/
def lookupByVisitorId (db : TenantDb) (visitorId : String) : Option IdentityRow :=
  (sortByLastSeenDesc
    (db.identity_mappings.filter (fun r => decide (r.visitor_id = visitorId)))).head?

/-- The rows of identity_mappings sharing the network address, most
recent first (the tier-2/3 SELECT). -/
def rowsByIp (db : TenantDb) (ip : String) : List IdentityRow :=
  sortByLastSeenDesc (db.identity_mappings.filter (fun r => decide (r.ip_address = ip)))

/-- The object returned by findExistingIdentity: the matched row fields
together with matchType and the computed confidence. -/
structure MatchResult where
  identity : Option String
  confidence_score : Option Rat
  identification_method : String
  browser_details : Option BrowserDetails
  matchType : String
  confidence : Rat
deriving DecidableEq

/-- Spread of a matched row plus matchType and confidence. -/
def mkMatch (r : IdentityRow) (ty : String) (conf : Rat) : MatchResult :=
  { identity := r.identity
    confidence_score := r.confidence_score
    identification_method := r.identification_method
    browser_details := r.browser_details
    matchType := ty
    confidence := conf }

/-- The body of findExistingIdentity in server.js (the try block, with
the store reachable): tier 1 exact visitor match, tier 2 network plus
browser-signature correlation, tier 3 network-only fallback, tier 4
no match (null). -/
def findExistingIdentityOk (db : TenantDb) (visitorId ip : String)
    (browserDetails : Option BrowserDetails) : Option MatchResult :=
  match lookupByVisitorId db visitorId with
  | some r =>
    some (mkMatch r "fingerprint" (max (jsNumOr r.confidence_score 0.8) 0.8))
  | none =>
    match rowsByIp db ip with
    | [] => none
    | r0 :: _ =>
      let browserHit : Option IdentityRow :=
        match browserDetails with
        | some bd => (rowsByIp db ip).find? (fun r => matchesSig r bd)
        | none => none
      match browserHit with
      | some r =>
        some (mkMatch r "ip_browser" (max (jsNumOr r.confidence_score 0.6) 0.6))
      | none =>
        some (mkMatch r0 "ip" (max (jsNumOr r0.confidence_score 0.4) 0.4))

/-- The store handle: a tenant partition plus an availability flag for
the backing lookup. -/
structure Db where
  tenant : TenantDb
  available : Bool
deriving DecidableEq

/-- findExistingIdentity including its catch clause: when the backing
lookup fails the error is logged and null is returned. -/
def findExistingIdentity (db : Db) (visitorId ip : String)
    (browserDetails : Option BrowserDetails) : Option MatchResult :=
  if db.available then findExistingIdentityOk db.tenant visitorId ip browserDetails
  else none

/-- The identityMatch part of the init response (matchType defaulting to
new_visitor and confidence defaulting to 1.0 when no match was found). -/
structure ResolveOutcome where
  identity : Option String
  matchType : String
  confidence : Rat
deriving DecidableEq

/-- Lines 216-222 of server.js: the response fields built from the
matcher result. -/
def initResolveOutcome (m : Option MatchResult) : ResolveOutcome :=
  { identity := m.bind (fun r => r.identity)
    matchType :=
      match m with
      | some r => if r.matchType = "" then "new_visitor" else r.matchType
      | none => "new_visitor"
    confidence :=
      match m with
      | some r => if r.confidence = 0 then 1.0 else r.confidence
      | none => 1.0 }

/-- Verified visitor data returned by the identification oracle
(fingerprint.js getVisitorData). -/
structure VisitorData where
  visitorId : String
  ip : String
  browserDetails : Option BrowserDetails
  confidence : Option Rat
  firstSeenAt : Option Nat
  lastSeenAt : Option Nat
  geolocation : Option String
deriving DecidableEq

/-- The oracle: per requestId, either verified visitor data or a thrown
error (network failure, missing identification data). -/
def Oracle : Type := String → Except Unit VisitorData

/-- verifyVisitorId in fingerprint.js: fetch the event for the
requestId and compare the visitor id; any thrown error is caught and
reported as false. -/
def verifyVisitorId (oracle : Oracle) (requestId claimedVisitorId : String) : Bool :=
  match oracle requestId with
  | .ok vd => decide (vd.visitorId = claimedVisitorId)
  | .error _ => false

/-- The freshly inserted identity_mappings row of the init upsert. -/
def upsertRow (vd : VisitorData) (matchIdentity : Option String) (now : Nat) :
    IdentityRow :=
  { visitor_id := vd.visitorId
    ip_address := vd.ip
    browser_details := vd.browserDetails
    confidence_score := some (jsNumOr vd.confidence 1.0)
    first_seen_at := jsNatOr vd.firstSeenAt now
    last_seen_at := jsNatOr vd.lastSeenAt now
    geolocation := vd.geolocation
    identification_method := "fingerprint"
    identity := matchIdentity }

/-- The INSERT ... ON CONFLICT (visitor_id) DO UPDATE of the init
endpoint: on conflict the mutable fields are replaced and the identity
column becomes COALESCE(existing identity, excluded identity); the
first_seen_at column is not touched by the update arm. -/
def initUpsert (db : TenantDb) (vd : VisitorData) (matchIdentity : Option String)
    (now : Nat) : TenantDb :=
  if db.identity_mappings.any (fun r => decide (r.visitor_id = vd.visitorId)) then
    { db with identity_mappings := db.identity_mappings.map (fun r =>
        if r.visitor_id = vd.visitorId then
          { r with
            ip_address := vd.ip
            browser_details := vd.browserDetails
            confidence_score := some (jsNumOr vd.confidence 1.0)
            last_seen_at := jsNatOr vd.lastSeenAt now
            geolocation := vd.geolocation
            identification_method := "fingerprint"
            identity :=
              match r.identity with
              | some d => some d
              | none => matchIdentity }
        else r) }
  else
    { db with identity_mappings := db.identity_mappings ++ [upsertRow vd matchIdentity now] }

/-- The session row inserted by the init endpoint. -/
def initSessionRow (sessionId : String) (vd : VisitorData) (now : Nat) : SessionRow :=
  { session_id := sessionId
    visitor_id := vd.visitorId
    ip_address := vd.ip
    browser_details := vd.browserDetails
    confidence_score := some (jsNumOr vd.confidence 1.0)
    identification_method := "fingerprint"
    created_at := now }

/-- HTTP-level outcome of an endpoint call. -/
inductive ApiResult (α : Type) where
  | ok (value : α)
  | badRequest (msg : String)
  | forbidden (msg : String)
  | serverError
deriving DecidableEq

/-- The session SELECT of the track and identify endpoints: only the
session_id is constrained, rows are not filtered by age. -/
def sessionLookup (db : TenantDb) (sessionId : String) : Option SessionRow :=
  (db.session_mappings.filter (fun s => decide (s.session_id = sessionId))).head?

/-- The latest geolocation SELECT (identity_mappings ordered by
last_seen_at descending, limit 1); an empty result yields null. -/
def latestGeo (rows : List IdentityRow) (visitorId : String) : Option String :=
  match (sortByLastSeenDesc
      (rows.filter (fun r => decide (r.visitor_id = visitorId)))).head? with
  | some r => r.geolocation
  | none => none

/-- The init endpoint response body (identity, match type, confidence). -/
structure InitResponse where
  sessionId : String
  outcome : ResolveOutcome
deriving DecidableEq

/-- The two mutation statements of the init transaction applied in
order (identity upsert, then session insert). -/
def initApply (t : TenantDb) (vd : VisitorData) (matchIdentity : Option String)
    (newSessionId : String) (now : Nat) : TenantDb :=
  let t1 := initUpsert t vd matchIdentity now
  { t1 with session_mappings := t1.session_mappings ++ [initSessionRow newSessionId vd now] }

/-- The init transaction with a per-statement success oracle: BEGIN,
the two statements, COMMIT; the catch clause issues ROLLBACK, so any
failure restores the initial state. -/
def initTxnRun (t : TenantDb) (vd : VisitorData) (matchIdentity : Option String)
    (newSessionId : String) (now : Nat) (oks : List Bool) : TenantDb :=
  if oks.getD 0 true = false then t
  else
    let t1 := initUpsert t vd matchIdentity now
    if oks.getD 1 true = false then t
    else { t1 with session_mappings := t1.session_mappings ++ [initSessionRow newSessionId vd now] }

/-- The init endpoint of server.js: presence checks, oracle fetch,
claimed-visitor comparison, matcher, then the upsert plus session
insert in one transaction. -/
def initEndpoint (oracle : Oracle) (db : Db) (requestId visitorId tenantId : String)
    (newSessionId : String) (now : Nat) : Db × ApiResult InitResponse :=
  if requestId = "" ∨ visitorId = "" ∨ tenantId = "" then
    (db, .badRequest "requestId, visitorId, and tenantId are required")
  else
    match oracle requestId with
    | .error _ => (db, .serverError)
    | .ok vd =>
      if vd.visitorId ≠ visitorId then (db, .forbidden "Invalid visitor ID")
      else
        let m := findExistingIdentity db vd.visitorId vd.ip vd.browserDetails
        let db2 := initApply db.tenant vd (m.bind (fun r => r.identity)) newSessionId now
        ({ db with tenant := db2 },
         .ok { sessionId := newSessionId, outcome := initResolveOutcome m })

/-- UPDATE identity_mappings SET identity, last_seen_at WHERE
visitor_id equals the given one. -/
def updateIdentityWhereVid (rows : List IdentityRow) (vid : String) (doc : String)
    (now : Nat) : List IdentityRow :=
  rows.map (fun r =>
    if r.visitor_id = vid then { r with identity := some doc, last_seen_at := now } else r)

/-- UPDATE identity_mappings SET identity, last_seen_at WHERE
visitor_id = ANY of the given list. -/
def updateIdentityWhereVidIn (rows : List IdentityRow) (vids : List String)
    (doc : String) (now : Nat) : List IdentityRow :=
  rows.map (fun r =>
    if r.visitor_id ∈ vids then { r with identity := some doc, last_seen_at := now } else r)

/-- UPDATE events SET identity WHERE visitor_id = ANY of the given list. -/
def updateEventsIdentityIn (evs : List EventRow) (vids : List String)
    (doc : String) : List EventRow :=
  evs.map (fun e => if e.visitor_id ∈ vids then { e with identity := some doc } else e)

/-- The related-identities SELECT DISTINCT of the identify endpoint:
rows sharing the network address captured in the session, with equal
browser name and os (from the session), excluding the session visitor. -/
def relatedVisitorIds (rows : List IdentityRow) (s : SessionRow)
    (sbd : BrowserDetails) : List String :=
  ((rows.filter (fun r =>
      decide (r.ip_address = s.ip_address) &&
      decide (r.visitor_id ≠ s.visitor_id) &&
      matchesSig r sbd)).map (fun r => r.visitor_id)).dedup

/-- The identify event row appended by the identify transaction:
userData is stored as both properties and identity. -/
def mkIdentifyEvent (sessionId : String) (s : SessionRow) (doc : String)
    (geo : Option String) : EventRow :=
  { session_id := sessionId
    visitor_id := s.visitor_id
    event_name := "identify"
    properties := doc
    identity := some doc
    ip_address := s.ip_address
    browser_details := s.browser_details
    confidence_score := s.confidence_score
    identification_method := s.identification_method
    geolocation := geo }

/-- The five-step identify transaction body, all statements succeeding:
primary update, related-set computation, related update, event snapshot
rewrite, identify-event append.  Returns the new state and the count of
related visitors. -/
def identifyApply (t : TenantDb) (sessionId : String) (s : SessionRow)
    (sbd : BrowserDetails) (doc : String) (now : Nat) : TenantDb × Nat :=
  let t1 := { t with
    identity_mappings := updateIdentityWhereVid t.identity_mappings s.visitor_id doc now }
  let related := relatedVisitorIds t1.identity_mappings s sbd
  let t2 :=
    if related.isEmpty then t1
    else { t1 with
      identity_mappings := updateIdentityWhereVidIn t1.identity_mappings related doc now }
  let t3 :=
    if related.isEmpty then
      { t2 with events := updateEventsIdentityIn t2.events [s.visitor_id] doc }
    else
      { t2 with events := updateEventsIdentityIn t2.events (related ++ [s.visitor_id]) doc }
  let geo := latestGeo t3.identity_mappings s.visitor_id
  ({ t3 with events := t3.events ++ [mkIdentifyEvent sessionId s doc geo] }, related.length)

/-- The identify transaction with a per-statement success oracle: the
statements run in order inside BEGIN/COMMIT and the catch clause issues
ROLLBACK, so a failure at any statement restores the initial state. -/
def identifyTxnRun (t : TenantDb) (sessionId : String) (s : SessionRow)
    (sbd : BrowserDetails) (doc : String) (now : Nat) (oks : List Bool) : TenantDb :=
  if oks.getD 0 true = false then t
  else
    let t1 := { t with
      identity_mappings := updateIdentityWhereVid t.identity_mappings s.visitor_id doc now }
    if oks.getD 1 true = false then t
    else
      let related := relatedVisitorIds t1.identity_mappings s sbd
      if oks.getD 2 true = false then t
      else
        let t2 :=
          if related.isEmpty then t1
          else { t1 with
            identity_mappings := updateIdentityWhereVidIn t1.identity_mappings related doc now }
        if oks.getD 3 true = false then t
        else
          let t3 :=
            if related.isEmpty then
              { t2 with events := updateEventsIdentityIn t2.events [s.visitor_id] doc }
            else
              { t2 with events := updateEventsIdentityIn t2.events (related ++ [s.visitor_id]) doc }
          if oks.getD 4 true = false then t
          else
            let geo := latestGeo t3.identity_mappings s.visitor_id
            if oks.getD 5 true = false then t
            else { t3 with events := t3.events ++ [mkIdentifyEvent sessionId s doc geo] }

/-- The identify endpoint response body. -/
structure IdentifyResponse where
  identity : String
  relatedIdentitiesUpdated : Nat
deriving DecidableEq

/-- The transaction part of the identify endpoint; dereferencing a null
session browser_details throws inside the try block, which rolls back
and surfaces as a server error. -/
def runIdentify (t : TenantDb) (sessionId : String) (s : SessionRow) (doc : String)
    (now : Nat) : TenantDb × ApiResult IdentifyResponse :=
  match s.browser_details with
  | none => (t, .serverError)
  | some sbd =>
    let out := identifyApply t sessionId s sbd doc now
    (out.1, .ok { identity := doc, relatedIdentitiesUpdated := out.2 })

/-- The identify endpoint of server.js: session lookup by session_id
only, optional proof verification, then the propagation transaction. -/
def identifyEndpoint (oracle : Oracle) (t : TenantDb)
    (sessionId userData requestId visitorId : String) (now : Nat) :
    TenantDb × ApiResult IdentifyResponse :=
  match sessionLookup t sessionId with
  | none => (t, .badRequest "Invalid session")
  | some s =>
    if requestId ≠ "" ∧ visitorId ≠ "" then
      if verifyVisitorId oracle requestId visitorId then
        runIdentify t sessionId s userData now
      else (t, .forbidden "Invalid visitor ID")
    else runIdentify t sessionId s userData now

/-- The track endpoint response body. -/
structure TrackResponse where
  event : EventRow
  matchType : Option String
  matchConfidence : Option Rat
deriving DecidableEq

/-- The event INSERT of the track endpoint. -/
def trackInsert (t : TenantDb) (s : SessionRow) (sessionId eventName properties : String) :
    TenantDb × ApiResult TrackResponse :=
  let m := findExistingIdentityOk t s.visitor_id s.ip_address s.browser_details
  let geo := latestGeo t.identity_mappings s.visitor_id
  let ev : EventRow :=
    { session_id := sessionId
      visitor_id := s.visitor_id
      event_name := eventName
      properties := properties
      identity := m.bind (fun r => r.identity)
      ip_address := s.ip_address
      browser_details := s.browser_details
      confidence_score := jsOrOpt (m.map (fun r => r.confidence)) s.confidence_score
      identification_method := s.identification_method
      geolocation := geo }
  ({ t with events := t.events ++ [ev] },
   .ok { event := ev
         matchType := m.map (fun r => r.matchType)
         matchConfidence := m.map (fun r => r.confidence) })

/-- The track endpoint of server.js: session lookup by session_id only
(no expiry filter), optional proof verification, then the event INSERT. -/
def trackEndpoint (oracle : Oracle) (t : TenantDb)
    (sessionId eventName properties requestId visitorId : String) :
    TenantDb × ApiResult TrackResponse :=
  match sessionLookup t sessionId with
  | none => (t, .badRequest "Invalid session")
  | some s =>
    if requestId ≠ "" ∧ visitorId ≠ "" then
      if verifyVisitorId oracle requestId visitorId then
        trackInsert t s sessionId eventName properties
      else (t, .forbidden "Invalid visitor ID")
    else trackInsert t s sessionId eventName properties

namespace DbUtils

/-- One entry of the in-memory identity cache of db-utils.js. -/
structure CacheEntry where
  data : EventTracking.IdentityRow
  timestamp : Nat
deriving DecidableEq

/-- The identity cache, keyed by the string visitor_ concatenated with
the visitor id. -/
abbrev IdentityCache : Type := List (String × CacheEntry)

/-- Map.get on the cache. -/
def cacheGet (c : IdentityCache) (k : String) : Option CacheEntry :=
  (c.find? (fun p => decide (p.1 = k))).map (fun p => p.2)

/-- Map.set on the cache (replace any prior binding of the key). -/
def cacheSet (c : IdentityCache) (k : String) (e : CacheEntry) : IdentityCache :=
  (k, e) :: c.filter (fun p => decide (p.1 ≠ k))

/-- CACHE_TTL of db-utils.js: five minutes in milliseconds. -/
def CACHE_TTL : Nat := 5 * 60 * 1000

/-- The identity_mappings SELECT of getIdentityByVisitorId (limit 1,
most recent first). -/
def dbLookupByVisitor (store : List EventTracking.IdentityRow) (vid : String) :
    Option EventTracking.IdentityRow :=
  (EventTracking.sortByLastSeenDesc
    (store.filter (fun r => decide (r.visitor_id = vid)))).head?

/-- getIdentityByVisitorId of db-utils.js: return the cached row when
it is younger than CACHE_TTL, otherwise query the store and cache any
row found.  Returns the row and the possibly updated cache. -/
def getIdentityByVisitorId (store : List EventTracking.IdentityRow)
    (cache : IdentityCache) (vid : String) (now : Nat) :
    Option EventTracking.IdentityRow × IdentityCache :=
  let key := "visitor_" ++ vid
  match cacheGet cache key with
  | some e =>
    if now - e.timestamp < CACHE_TTL then (some e.data, cache)
    else
      match dbLookupByVisitor store vid with
      | some r => (some r, cacheSet cache key { data := r, timestamp := now })
      | none => (none, cache)
  | none =>
    match dbLookupByVisitor store vid with
    | some r => (some r, cacheSet cache key { data := r, timestamp := now })
    | none => (none, cache)

/-- validateSession of db-utils.js: the session row must exist and its
created_at must be later than now minus twenty-four hours. -/
def validateSession (sessions : List EventTracking.SessionRow) (sessionId : String)
    (now : Nat) : Option EventTracking.SessionRow :=
  (sessions.filter (fun s =>
    decide (s.session_id = sessionId) &&
    decide (now < s.created_at + 24 * 60 * 60 * 1000))).head?

/-- The combined state the db-utils layer acts on: the store tables and
the identity cache. -/
structure UtilState where
  identity_mappings : List EventTracking.IdentityRow
  events : List EventTracking.EventRow
  cache : IdentityCache
deriving DecidableEq

/-- updateIdentity of db-utils.js: write the document onto the main
visitor row, and when related ids are supplied onto those rows and all
their events too.  The cache is not touched anywhere in this function. -/
def updateIdentity (st : UtilState) (vid : String) (doc : String)
    (relatedIds : List String) (now : Nat) : UtilState :=
  let im1 := EventTracking.updateIdentityWhereVid st.identity_mappings vid doc now
  if relatedIds.isEmpty then
    { st with identity_mappings := im1 }
  else
    { st with
      identity_mappings := EventTracking.updateIdentityWhereVidIn im1 relatedIds doc now
      events := EventTracking.updateEventsIdentityIn st.events (relatedIds ++ [vid]) doc }

end DbUtils

namespace Tenant

/-- The storage-addressing expression the server interpolates the
tenant identifier into (schema-qualified table name). -/
def tenantTableExpr (tenantId tableName : String) : String :=
  tenantId ++ "." ++ tableName

/-- The only check the endpoints apply to an inbound tenant identifier:
JS truthiness (absent or empty rejected with a 400). -/
def endpointChecksTenant (tenantId : String) : Bool :=
  decide (tenantId ≠ "")

/-- Follows the words of the spec: the allow-list a tenant identifier
must satisfy before addressing a storage partition (alphanumerics plus
underscore, nonempty). -/
def specTenantAllowList (tenantId : String) : Bool :=
  decide (tenantId ≠ "") && tenantId.toList.all (fun c => c.isAlphanum || decide (c = '_'))

/-- The whole store: one partition (schema) per tenant identifier. -/
abbrev GlobalStore : Type := String → EventTracking.TenantDb

/-- The identify endpoint at the whole-store level: the tenant
identifier selects the partition all statements address. -/
def identifyGlobal (oracle : EventTracking.Oracle) (g : GlobalStore)
    (tenantId sessionId userData requestId visitorId : String) (now : Nat) :
    GlobalStore × EventTracking.ApiResult EventTracking.IdentifyResponse :=
  if tenantId = "" then (g, .badRequest "tenantId is required")
  else
    let out := EventTracking.identifyEndpoint oracle (g tenantId)
      sessionId userData requestId visitorId now
    (Function.update g tenantId out.1, out.2)

end Tenant

/-! Helper lemmas about the matcher. -/

theorem jsNumOr_max (cs : Option Rat) (c : Rat) (hc : 0 ≤ c) :
    max (jsNumOr cs c) c = max (cs.getD 0) c := by
  cases cs with
  | none => simp [jsNumOr, max_eq_right hc]
  | some v =>
    by_cases hv : v = 0
    · subst hv; simp [jsNumOr, max_eq_right hc]
    · simp [jsNumOr, hv]

theorem mem_rowsByIp {db : TenantDb} {ip : String} {r : IdentityRow} :
    r ∈ rowsByIp db ip ↔ r ∈ db.identity_mappings ∧ r.ip_address = ip := by
  unfold rowsByIp
  rw [mem_sortByLastSeenDesc, List.mem_filter]
  simp

theorem lookupByVisitorId_eq_none {db : TenantDb} {vid : String}
    (h : ∀ r ∈ db.identity_mappings, r.visitor_id ≠ vid) :
    lookupByVisitorId db vid = none := by
  unfold lookupByVisitorId
  have hf : db.identity_mappings.filter (fun r => decide (r.visitor_id = vid)) = [] :=
    List.filter_eq_nil_iff.mpr (by intro a ha; simpa using h a ha)
  rw [hf]
  rfl

theorem lookupByVisitorId_eq_some {db : TenantDb} {vid : String} {r : IdentityRow}
    (huniq : ∀ r1 ∈ db.identity_mappings, ∀ r2 ∈ db.identity_mappings,
      r1.visitor_id = r2.visitor_id → r1 = r2)
    (hr : r ∈ db.identity_mappings) (hv : r.visitor_id = vid) :
    lookupByVisitorId db vid = some r := by
  unfold lookupByVisitorId
  have hrf : r ∈ db.identity_mappings.filter (fun x => decide (x.visitor_id = vid)) :=
    List.mem_filter.mpr ⟨hr, by simp [hv]⟩
  cases hs : sortByLastSeenDesc
      (db.identity_mappings.filter (fun x => decide (x.visitor_id = vid))) with
  | nil =>
    exfalso
    rw [sortByLastSeenDesc_eq_nil_iff.mp hs] at hrf
    simp at hrf
  | cons a l =>
    have ha : a ∈ sortByLastSeenDesc
        (db.identity_mappings.filter (fun x => decide (x.visitor_id = vid))) := by
      rw [hs]; exact List.mem_cons_self a l
    have ha2 := mem_sortByLastSeenDesc.mp ha
    have ham := (List.mem_filter.mp ha2).1
    have hav : a.visitor_id = vid := by
      have := (List.mem_filter.mp ha2).2
      simpa using this
    have : a = r := huniq a ham r hr (by rw [hav, hv])
    rw [this]
    rfl

/-! C1: the four-tier resolution algorithm. -/

/-- C1: for every resolution request, the matcher applies the four
tiers in strict priority order, each short-circuiting the next: an
exact visitor_id match is returned as fingerprint with confidence
max(stored, 0.8); else the most-recently-seen row sharing the network
address with equal browser name and os is returned as ip_browser with
confidence max(stored, 0.6); else the most-recently-seen row sharing
the network address is returned as ip with confidence max(stored, 0.4);
else the result is a new visitor with method new_visitor and
confidence 1.0. -/
theorem c1_tiered_resolution (db : TenantDb) (vid ip : String) (bd : BrowserDetails)
    (huniq : ∀ r1 ∈ db.identity_mappings, ∀ r2 ∈ db.identity_mappings,
      r1.visitor_id = r2.visitor_id → r1 = r2) :
    (∀ r ∈ db.identity_mappings, r.visitor_id = vid →
      findExistingIdentityOk db vid ip (some bd)
        = some (mkMatch r "fingerprint" (max (r.confidence_score.getD 0) 0.8)))
    ∧
    ((∀ r ∈ db.identity_mappings, r.visitor_id ≠ vid) →
      ∀ r ∈ db.identity_mappings, r.ip_address = ip → matchesSig r bd = true →
      ∃ w ∈ db.identity_mappings, w.ip_address = ip ∧ matchesSig w bd = true ∧
        (∀ x ∈ db.identity_mappings, x.ip_address = ip → matchesSig x bd = true →
          x.last_seen_at ≤ w.last_seen_at) ∧
        findExistingIdentityOk db vid ip (some bd)
          = some (mkMatch w "ip_browser" (max (w.confidence_score.getD 0) 0.6)))
    ∧
    ((∀ r ∈ db.identity_mappings, r.visitor_id ≠ vid) →
      (∀ r ∈ db.identity_mappings, r.ip_address = ip → matchesSig r bd = false) →
      ∀ r ∈ db.identity_mappings, r.ip_address = ip →
      ∃ w ∈ db.identity_mappings, w.ip_address = ip ∧
        (∀ x ∈ db.identity_mappings, x.ip_address = ip →
          x.last_seen_at ≤ w.last_seen_at) ∧
        findExistingIdentityOk db vid ip (some bd)
          = some (mkMatch w "ip" (max (w.confidence_score.getD 0) 0.4)))
    ∧
    ((∀ r ∈ db.identity_mappings, r.visitor_id ≠ vid ∧ r.ip_address ≠ ip) →
      findExistingIdentityOk db vid ip (some bd) = none ∧
      (initResolveOutcome (findExistingIdentityOk db vid ip (some bd))).matchType
        = "new_visitor" ∧
      (initResolveOutcome (findExistingIdentityOk db vid ip (some bd))).confidence = 1) := by
  refine ⟨?tier1, ?tier2, ?tier3, ?tier4⟩
  case tier1 =>
    intro r hr hv
    have hl := lookupByVisitorId_eq_some huniq hr hv
    have hres : findExistingIdentityOk db vid ip (some bd)
        = some (mkMatch r "fingerprint" (max (jsNumOr r.confidence_score 0.8) 0.8)) := by
      unfold findExistingIdentityOk
      rw [hl]
    rw [hres, jsNumOr_max r.confidence_score 0.8 (by norm_num)]
  case tier2 =>
    intro hno r hr hip hsig
    have hl := lookupByVisitorId_eq_none hno
    have hrip : r ∈ rowsByIp db ip := mem_rowsByIp.mpr ⟨hr, hip⟩
    cases hrows : rowsByIp db ip with
    | nil => rw [hrows] at hrip; simp at hrip
    | cons r0 rest =>
      have hfind : ∃ w, (rowsByIp db ip).find? (fun x => matchesSig x bd) = some w := by
        cases hf : (rowsByIp db ip).find? (fun x => matchesSig x bd) with
        | none =>
          exfalso
          exact absurd hsig (by simpa using List.find?_eq_none.mp hf r hrip)
        | some w => exact ⟨w, rfl⟩
      obtain ⟨w, hw⟩ := hfind
      have hwmem : w ∈ rowsByIp db ip := List.mem_of_find?_eq_some hw
      have hwdb := mem_rowsByIp.mp hwmem
      have hwsig : matchesSig w bd = true := by
        have h2 := List.find?_some hw
        simpa using h2
      refine ⟨w, hwdb.1, hwdb.2, hwsig, ?_, ?_⟩
      · intro x hx hxip hxsig
        exact find_matchesSig_maximal bd (rowsByIp db ip)
          (pairwise_sortByLastSeenDesc _) w hw x (mem_rowsByIp.mpr ⟨hx, hxip⟩) hxsig
      · have hres : findExistingIdentityOk db vid ip (some bd)
            = some (mkMatch w "ip_browser" (max (jsNumOr w.confidence_score 0.6) 0.6)) := by
          unfold findExistingIdentityOk
          rw [hl, hrows]
          rw [hrows] at hw
          simp only [hw]
        rw [hres, jsNumOr_max w.confidence_score 0.6 (by norm_num)]
  case tier3 =>
    intro hno hnosig r hr hip
    have hl := lookupByVisitorId_eq_none hno
    have hrip : r ∈ rowsByIp db ip := mem_rowsByIp.mpr ⟨hr, hip⟩
    cases hrows : rowsByIp db ip with
    | nil => rw [hrows] at hrip; simp at hrip
    | cons r0 rest =>
      have hr0 : r0 ∈ rowsByIp db ip := by rw [hrows]; exact List.mem_cons_self r0 rest
      have hr0db := mem_rowsByIp.mp hr0
      have hnone : (rowsByIp db ip).find? (fun x => matchesSig x bd) = none := by
        apply List.find?_eq_none.mpr
        intro x hx
        have hxdb := mem_rowsByIp.mp hx
        simp [hnosig x hxdb.1 hxdb.2]
      refine ⟨r0, hr0db.1, hr0db.2, ?_, ?_⟩
      · intro x hx hxip
        have hx2 : x ∈ rowsByIp db ip := mem_rowsByIp.mpr ⟨hx, hxip⟩
        rw [hrows] at hx2
        exact pairwise_head_max (hrows ▸ pairwise_sortByLastSeenDesc
          (db.identity_mappings.filter (fun x => decide (x.ip_address = ip)))) x hx2
      · have hres : findExistingIdentityOk db vid ip (some bd)
            = some (mkMatch r0 "ip" (max (jsNumOr r0.confidence_score 0.4) 0.4)) := by
          unfold findExistingIdentityOk
          rw [hl, hrows]
          rw [hrows] at hnone
          simp only [hnone]
        rw [hres, jsNumOr_max r0.confidence_score 0.4 (by norm_num)]
  case tier4 =>
    intro hno
    have hl := lookupByVisitorId_eq_none (fun r hr => (hno r hr).1)
    have hempty : rowsByIp db ip = [] := by
      unfold rowsByIp
      rw [sortByLastSeenDesc_eq_nil_iff]
      exact List.filter_eq_nil_iff.mpr (by intro a ha; simpa using (hno a ha).2)
    have hres : findExistingIdentityOk db vid ip (some bd) = none := by
      unfold findExistingIdentityOk
      rw [hl, hempty]
    refine ⟨hres, ?_, ?_⟩
    · rw [hres]; rfl
    · rw [hres]; norm_num [initResolveOutcome]

/-- Concrete instantiation of C1 on a two-row store. -/
def c1Db : TenantDb :=
  { identity_mappings :=
      [ { visitor_id := "v1", ip_address := "1.1.1.1"
          browser_details := some { browserName := "Chrome", os := "Linux" }
          confidence_score := none, first_seen_at := 1, last_seen_at := 5
          geolocation := none, identification_method := "fingerprint"
          identity := none }
      , { visitor_id := "v2", ip_address := "1.1.1.1"
          browser_details := some { browserName := "Chrome", os := "Linux" }
          confidence_score := none, first_seen_at := 2, last_seen_at := 9
          geolocation := none, identification_method := "fingerprint"
          identity := none } ]
    session_mappings := []
    events := [] }

theorem c1_tiered_resolution_witness :
    (∀ r1 ∈ c1Db.identity_mappings, ∀ r2 ∈ c1Db.identity_mappings,
      r1.visitor_id = r2.visitor_id → r1 = r2) ∧
    ((∀ r ∈ c1Db.identity_mappings, r.visitor_id = "v1" →
      findExistingIdentityOk c1Db "v1" "9.9.9.9" (some { browserName := "Chrome", os := "Linux" })
        = some (mkMatch r "fingerprint" (max (r.confidence_score.getD 0) 0.8)))
    ∧
    ((∀ r ∈ c1Db.identity_mappings, r.visitor_id ≠ "v1") →
      ∀ r ∈ c1Db.identity_mappings, r.ip_address = "9.9.9.9" →
        matchesSig r { browserName := "Chrome", os := "Linux" } = true →
      ∃ w ∈ c1Db.identity_mappings, w.ip_address = "9.9.9.9" ∧
        matchesSig w { browserName := "Chrome", os := "Linux" } = true ∧
        (∀ x ∈ c1Db.identity_mappings, x.ip_address = "9.9.9.9" →
          matchesSig x { browserName := "Chrome", os := "Linux" } = true →
          x.last_seen_at ≤ w.last_seen_at) ∧
        findExistingIdentityOk c1Db "v1" "9.9.9.9" (some { browserName := "Chrome", os := "Linux" })
          = some (mkMatch w "ip_browser" (max (w.confidence_score.getD 0) 0.6)))
    ∧
    ((∀ r ∈ c1Db.identity_mappings, r.visitor_id ≠ "v1") →
      (∀ r ∈ c1Db.identity_mappings, r.ip_address = "9.9.9.9" →
        matchesSig r { browserName := "Chrome", os := "Linux" } = false) →
      ∀ r ∈ c1Db.identity_mappings, r.ip_address = "9.9.9.9" →
      ∃ w ∈ c1Db.identity_mappings, w.ip_address = "9.9.9.9" ∧
        (∀ x ∈ c1Db.identity_mappings, x.ip_address = "9.9.9.9" →
          x.last_seen_at ≤ w.last_seen_at) ∧
        findExistingIdentityOk c1Db "v1" "9.9.9.9" (some { browserName := "Chrome", os := "Linux" })
          = some (mkMatch w "ip" (max (w.confidence_score.getD 0) 0.4)))
    ∧
    ((∀ r ∈ c1Db.identity_mappings, r.visitor_id ≠ "v1" ∧ r.ip_address ≠ "9.9.9.9") →
      findExistingIdentityOk c1Db "v1" "9.9.9.9" (some { browserName := "Chrome", os := "Linux" }) = none ∧
      (initResolveOutcome (findExistingIdentityOk c1Db "v1" "9.9.9.9"
        (some { browserName := "Chrome", os := "Linux" }))).matchType = "new_visitor" ∧
      (initResolveOutcome (findExistingIdentityOk c1Db "v1" "9.9.9.9"
        (some { browserName := "Chrome", os := "Linux" }))).confidence = 1)) :=
  ⟨by decide, c1_tiered_resolution c1Db "v1" "9.9.9.9"
    { browserName := "Chrome", os := "Linux" } (by decide)⟩

/-! Helper lemmas about the propagation updates. -/

theorem mem_updateIdentityWhereVid_iff {rows : List IdentityRow} {vid doc : String}
    {now : Nat} {r1 : IdentityRow} :
    r1 ∈ updateIdentityWhereVid rows vid doc now ↔
      ∃ r ∈ rows, r1 = (if r.visitor_id = vid then
        { r with identity := some doc, last_seen_at := now } else r) := by
  unfold updateIdentityWhereVid
  rw [List.mem_map]
  constructor
  · rintro ⟨r, hr, h⟩; exact ⟨r, hr, h.symm⟩
  · rintro ⟨r, hr, h⟩; exact ⟨r, hr, h.symm⟩

theorem updateIdentityWhereVid_vid {rows : List IdentityRow} {vid doc : String}
    {now : Nat} {r1 : IdentityRow}
    (h : r1 ∈ updateIdentityWhereVid rows vid doc now) (hv : r1.visitor_id = vid) :
    r1.identity = some doc := by
  obtain ⟨r, hr, heq⟩ := mem_updateIdentityWhereVid_iff.mp h
  by_cases hc : r.visitor_id = vid
  · rw [if_pos hc] at heq; rw [heq]
  · rw [if_neg hc] at heq; rw [heq] at hv; exact absurd hv hc

theorem updateIdentityWhereVid_other {rows : List IdentityRow} {vid doc : String}
    {now : Nat} {r1 : IdentityRow}
    (h : r1 ∈ updateIdentityWhereVid rows vid doc now) (hv : r1.visitor_id ≠ vid) :
    r1 ∈ rows := by
  obtain ⟨r, hr, heq⟩ := mem_updateIdentityWhereVid_iff.mp h
  by_cases hc : r.visitor_id = vid
  · rw [if_pos hc] at heq
    exfalso
    apply hv
    rw [heq]
    exact hc
  · rw [if_neg hc] at heq; rw [heq]; exact hr

theorem mem_updateIdentityWhereVidIn_iff {rows : List IdentityRow} {vids : List String}
    {doc : String} {now : Nat} {r1 : IdentityRow} :
    r1 ∈ updateIdentityWhereVidIn rows vids doc now ↔
      ∃ r ∈ rows, r1 = (if r.visitor_id ∈ vids then
        { r with identity := some doc, last_seen_at := now } else r) := by
  unfold updateIdentityWhereVidIn
  rw [List.mem_map]
  constructor
  · rintro ⟨r, hr, h⟩; exact ⟨r, hr, h.symm⟩
  · rintro ⟨r, hr, h⟩; exact ⟨r, hr, h.symm⟩

theorem updateIdentityWhereVidIn_mem {rows : List IdentityRow} {vids : List String}
    {doc : String} {now : Nat} {r1 : IdentityRow}
    (h : r1 ∈ updateIdentityWhereVidIn rows vids doc now) (hv : r1.visitor_id ∈ vids) :
    r1.identity = some doc := by
  obtain ⟨r, hr, heq⟩ := mem_updateIdentityWhereVidIn_iff.mp h
  by_cases hc : r.visitor_id ∈ vids
  · rw [if_pos hc] at heq; rw [heq]
  · rw [if_neg hc] at heq; rw [heq] at hv; exact absurd hv hc

theorem updateIdentityWhereVidIn_notin {rows : List IdentityRow} {vids : List String}
    {doc : String} {now : Nat} {r1 : IdentityRow}
    (h : r1 ∈ updateIdentityWhereVidIn rows vids doc now) (hv : r1.visitor_id ∉ vids) :
    r1 ∈ rows := by
  obtain ⟨r, hr, heq⟩ := mem_updateIdentityWhereVidIn_iff.mp h
  by_cases hc : r.visitor_id ∈ vids
  · exfalso
    apply hv
    rw [if_pos hc] at heq
    rw [heq]
    exact hc
  · rw [if_neg hc] at heq; rw [heq]; exact hr

theorem updateEventsIdentityIn_mem {evs : List EventRow} {vids : List String}
    {doc : String} {e : EventRow}
    (h : e ∈ updateEventsIdentityIn evs vids doc) (hv : e.visitor_id ∈ vids) :
    e.identity = some doc := by
  unfold updateEventsIdentityIn at h
  obtain ⟨e0, he0, heq⟩ := List.mem_map.mp h
  by_cases hc : e0.visitor_id ∈ vids
  · rw [if_pos hc] at heq; rw [← heq]
  · rw [if_neg hc] at heq; rw [← heq] at hv; exact absurd hv hc

/-- Membership in the related set, characterised over the rows the
SELECT DISTINCT scans. -/
theorem mem_relatedVisitorIds {rows : List IdentityRow} {s : SessionRow}
    {sbd : BrowserDetails} {v : String} :
    v ∈ relatedVisitorIds rows s sbd ↔
      ∃ r ∈ rows, r.visitor_id = v ∧ r.ip_address = s.ip_address ∧
        v ≠ s.visitor_id ∧ matchesSig r sbd = true := by
  unfold relatedVisitorIds
  rw [List.mem_dedup, List.mem_map]
  constructor
  · rintro ⟨r, hr, hv⟩
    have hm := (List.mem_filter.mp hr).1
    have hc := (List.mem_filter.mp hr).2
    simp only [Bool.and_eq_true, decide_eq_true_eq] at hc
    exact ⟨r, hm, hv, hc.1.1, hv ▸ hc.1.2, hc.2⟩
  · rintro ⟨r, hm, hv, hip, hne, hsig⟩
    refine ⟨r, List.mem_filter.mpr ⟨hm, ?_⟩, hv⟩
    simp only [Bool.and_eq_true, decide_eq_true_eq]
    exact ⟨⟨hip, hv ▸ hne⟩, hsig⟩

theorem matchesSig_congr {r1 r2 : IdentityRow}
    (h : r1.browser_details = r2.browser_details) (bd : BrowserDetails) :
    matchesSig r1 bd = matchesSig r2 bd := by
  unfold matchesSig
  rw [h]

theorem updateIdentityWhereVid_fields {rows : List IdentityRow} {vid0 doc : String}
    {now : Nat} {r1 : IdentityRow} (h : r1 ∈ updateIdentityWhereVid rows vid0 doc now) :
    ∃ r ∈ rows, r1.visitor_id = r.visitor_id ∧ r1.ip_address = r.ip_address ∧
      r1.browser_details = r.browser_details := by
  obtain ⟨r, hr, heq⟩ := mem_updateIdentityWhereVid_iff.mp h
  by_cases hc : r.visitor_id = vid0
  · rw [if_pos hc] at heq; subst heq; exact ⟨r, hr, rfl, rfl, rfl⟩
  · rw [if_neg hc] at heq
    exact ⟨r, hr, by rw [heq], by rw [heq], by rw [heq]⟩

theorem updateIdentityWhereVid_surj {rows : List IdentityRow} {vid0 doc : String}
    {now : Nat} {r : IdentityRow} (hr : r ∈ rows) :
    ∃ r1 ∈ updateIdentityWhereVid rows vid0 doc now,
      r1.visitor_id = r.visitor_id ∧ r1.ip_address = r.ip_address ∧
      r1.browser_details = r.browser_details := by
  refine ⟨(if r.visitor_id = vid0 then
      { r with identity := some doc, last_seen_at := now } else r),
    mem_updateIdentityWhereVid_iff.mpr ⟨r, hr, rfl⟩, ?_⟩
  by_cases hc : r.visitor_id = vid0
  · rw [if_pos hc]; exact ⟨rfl, rfl, rfl⟩
  · rw [if_neg hc]; exact ⟨rfl, rfl, rfl⟩

/-- The primary update preserves visitor_id, ip_address and
browser_details, so the related set computed after it coincides with
the one over the original rows. -/
theorem mem_relatedVisitorIds_after_update {rows : List IdentityRow} {vid0 doc : String}
    {now : Nat} {s : SessionRow} {sbd : BrowserDetails} {v : String} :
    v ∈ relatedVisitorIds (updateIdentityWhereVid rows vid0 doc now) s sbd ↔
      ∃ r ∈ rows, r.visitor_id = v ∧ r.ip_address = s.ip_address ∧
        v ≠ s.visitor_id ∧ matchesSig r sbd = true := by
  rw [mem_relatedVisitorIds]
  constructor
  · rintro ⟨r1, hr1, hv, hip, hne, hsig⟩
    obtain ⟨r, hr, hfv, hfip, hfbd⟩ := updateIdentityWhereVid_fields hr1
    refine ⟨r, hr, ?_, ?_, hne, ?_⟩
    · rw [← hfv]; exact hv
    · rw [← hfip]; exact hip
    · rw [← matchesSig_congr hfbd]; exact hsig
  · rintro ⟨r, hr, hv, hip, hne, hsig⟩
    obtain ⟨r1, hr1, hfv, hfip, hfbd⟩ :=
      @updateIdentityWhereVid_surj rows vid0 doc now r hr
    refine ⟨r1, hr1, ?_, ?_, hne, ?_⟩
    · rw [hfv]; exact hv
    · rw [hfip]; exact hip
    · rw [matchesSig_congr hfbd]; exact hsig

/-! C2: the identify propagation. -/

/-- The related set as computed by the identify transaction (over the
rows already carrying the primary update). -/
def identifyRelatedSet (t : TenantDb) (s : SessionRow) (sbd : BrowserDetails)
    (doc : String) (now : Nat) : List String :=
  relatedVisitorIds (updateIdentityWhereVid t.identity_mappings s.visitor_id doc now) s sbd

/-- The identity_mappings table after the identify transaction. -/
def identifyFinalIm (t : TenantDb) (s : SessionRow) (sbd : BrowserDetails)
    (doc : String) (now : Nat) : List IdentityRow :=
  if (identifyRelatedSet t s sbd doc now).isEmpty
  then updateIdentityWhereVid t.identity_mappings s.visitor_id doc now
  else updateIdentityWhereVidIn
    (updateIdentityWhereVid t.identity_mappings s.visitor_id doc now)
    (identifyRelatedSet t s sbd doc now) doc now

/-- The rewritten events table, before the identify event is appended. -/
def identifyUpdatedEvents (t : TenantDb) (s : SessionRow) (sbd : BrowserDetails)
    (doc : String) (now : Nat) : List EventRow :=
  if (identifyRelatedSet t s sbd doc now).isEmpty
  then updateEventsIdentityIn t.events [s.visitor_id] doc
  else updateEventsIdentityIn t.events
    (identifyRelatedSet t s sbd doc now ++ [s.visitor_id]) doc

theorem identifyApply_eq (t : TenantDb) (sessionId : String) (s : SessionRow)
    (sbd : BrowserDetails) (doc : String) (now : Nat) :
    identifyApply t sessionId s sbd doc now
      = ({ identity_mappings := identifyFinalIm t s sbd doc now
           session_mappings := t.session_mappings
           events := identifyUpdatedEvents t s sbd doc now
             ++ [mkIdentifyEvent sessionId s doc
                  (latestGeo (identifyFinalIm t s sbd doc now) s.visitor_id)] },
         (identifyRelatedSet t s sbd doc now).length) := by
  unfold identifyApply identifyFinalIm identifyUpdatedEvents identifyRelatedSet
  by_cases h : (relatedVisitorIds
      (updateIdentityWhereVid t.identity_mappings s.visitor_id doc now) s sbd).isEmpty
  · simp [h]
  · rw [Bool.not_eq_true] at h
    simp [h]

/-- C2 as frozen is false on the code: the related set is keyed by the
network address and browser signature captured in the Session, not by
the current values of the primary Visitor row.  Here the primary row
has moved to network address 2.2.2.2, where row v2 shares its browser
name and os, yet after Identify the v2 row keeps a null identity. -/
def c2Db : TenantDb :=
  { identity_mappings :=
      [ { visitor_id := "v1", ip_address := "2.2.2.2"
          browser_details := some { browserName := "Chrome", os := "Linux" }
          confidence_score := none, first_seen_at := 1, last_seen_at := 5
          geolocation := none, identification_method := "fingerprint"
          identity := none }
      , { visitor_id := "v2", ip_address := "2.2.2.2"
          browser_details := some { browserName := "Chrome", os := "Linux" }
          confidence_score := none, first_seen_at := 2, last_seen_at := 6
          geolocation := none, identification_method := "fingerprint"
          identity := none } ]
    session_mappings :=
      [ { session_id := "s1", visitor_id := "v1", ip_address := "1.1.1.1"
          browser_details := some { browserName := "Chrome", os := "Linux" }
          confidence_score := none, identification_method := "fingerprint"
          created_at := 0 } ]
    events := [] }

/-- An oracle whose calls always throw. -/
def noOracle : Oracle := fun _ => Except.error ()

/-- C2 counterexample: the primary Visitor row (v1) and row v2 share
the network address 2.2.2.2 and the browser signature, so the frozen
claim requires the identity document to be written onto v2; the code
leaves the identity of v2 null because the session captured the
network address 1.1.1.1. -/
theorem c2_counterexample :
    (∃ p ∈ c2Db.identity_mappings, p.visitor_id = "v1" ∧
      ∃ q ∈ c2Db.identity_mappings, q.visitor_id = "v2" ∧
        q.ip_address = p.ip_address ∧ q.browser_details = p.browser_details) ∧
    (sessionLookup c2Db "s1").isSome = true ∧
    ((identifyEndpoint noOracle c2Db "s1" "doc" "" "" 100).1.identity_mappings.map
      (fun r => (r.visitor_id, r.identity)))
      = [("v1", some "doc"), ("v2", (none : Option String))] ∧
    ((identifyEndpoint noOracle c2Db "s1" "doc" "" "" 100).2
      = ApiResult.ok { identity := "doc", relatedIdentitiesUpdated := 0 }) := by
  refine ⟨by decide, by decide, by decide, by decide⟩

/-- C2 amended: for every Identify call whose session token resolves
to a Session (and whose optional proof, when supplied, verifies), the
document is written unconditionally onto every Visitor row carrying the
session visitor_id; the related set is every other visitor sharing the
network address, browser name and os captured in the Session; the
document is written onto every related Visitor row; the identity
snapshot of every Event whose visitor is the primary or a related
visitor is rewritten to the document; exactly one identify Event
carrying the document as both properties and identity snapshot is
appended; and the response reports the count of related visitors. -/
theorem c2_identify_propagation (oracle : Oracle) (t : TenantDb)
    (sessionId userData requestId visitorId : String) (now : Nat) (s : SessionRow)
    (hs : sessionLookup t sessionId = some s)
    (sbd : BrowserDetails) (hbd : s.browser_details = some sbd)
    (hver : requestId = "" ∨ visitorId = "" ∨
      verifyVisitorId oracle requestId visitorId = true) :
    identifyEndpoint oracle t sessionId userData requestId visitorId now
      = ((identifyApply t sessionId s sbd userData now).1,
         ApiResult.ok { identity := userData,
                        relatedIdentitiesUpdated :=
                          (identifyApply t sessionId s sbd userData now).2 })
    ∧ (identifyApply t sessionId s sbd userData now).2
        = (identifyRelatedSet t s sbd userData now).length
    ∧ (∀ v, v ∈ identifyRelatedSet t s sbd userData now ↔
        ∃ r ∈ t.identity_mappings, r.visitor_id = v ∧ r.ip_address = s.ip_address ∧
          v ≠ s.visitor_id ∧ matchesSig r sbd = true)
    ∧ (∀ r ∈ (identifyApply t sessionId s sbd userData now).1.identity_mappings,
        r.visitor_id = s.visitor_id → r.identity = some userData)
    ∧ (∀ r ∈ (identifyApply t sessionId s sbd userData now).1.identity_mappings,
        r.visitor_id ∈ identifyRelatedSet t s sbd userData now → r.identity = some userData)
    ∧ (∀ e ∈ (identifyApply t sessionId s sbd userData now).1.events,
        (e.visitor_id = s.visitor_id ∨
          e.visitor_id ∈ identifyRelatedSet t s sbd userData now) →
        e.identity = some userData)
    ∧ (identifyApply t sessionId s sbd userData now).1.events.length
        = t.events.length + 1
    ∧ (∃ geo, (identifyApply t sessionId s sbd userData now).1.events.getLast?
        = some (mkIdentifyEvent sessionId s userData geo)) := by
  have happly := identifyApply_eq t sessionId s sbd userData now
  have hrun : runIdentify t sessionId s userData now
      = ((identifyApply t sessionId s sbd userData now).1,
         ApiResult.ok { identity := userData,
                        relatedIdentitiesUpdated :=
                          (identifyApply t sessionId s sbd userData now).2 }) := by
    unfold runIdentify
    rw [hbd]
  refine ⟨?endpoint, ?count, ?relmem, ?primary, ?related, ?events, ?length, ?last⟩
  case endpoint =>
    have hend : identifyEndpoint oracle t sessionId userData requestId visitorId now
        = (if requestId ≠ "" ∧ visitorId ≠ "" then
            if verifyVisitorId oracle requestId visitorId = true then
              runIdentify t sessionId s userData now
            else (t, ApiResult.forbidden "Invalid visitor ID")
          else runIdentify t sessionId s userData now) := by
      unfold identifyEndpoint
      rw [hs]
    rw [hend]
    by_cases hrv : requestId ≠ "" ∧ visitorId ≠ ""
    · rw [if_pos hrv]
      rcases hver with h | h | h
      · exact absurd h hrv.1
      · exact absurd h hrv.2
      · rw [if_pos h]; exact hrun
    · rw [if_neg hrv]; exact hrun
  case count =>
    rw [happly]
  case relmem =>
    intro v
    exact mem_relatedVisitorIds_after_update
  case primary =>
    intro r hr hv
    rw [happly] at hr
    simp only at hr
    unfold identifyFinalIm at hr
    by_cases hempty : (identifyRelatedSet t s sbd userData now).isEmpty
    · rw [if_pos hempty] at hr
      exact updateIdentityWhereVid_vid hr hv
    · rw [if_neg hempty] at hr
      have hnotin : r.visitor_id ∉ identifyRelatedSet t s sbd userData now := by
        intro hin
        obtain ⟨r0, _, _, _, hne, _⟩ := mem_relatedVisitorIds_after_update.mp hin
        exact hne hv
      exact updateIdentityWhereVid_vid (updateIdentityWhereVidIn_notin hr hnotin) hv
  case related =>
    intro r hr hv
    rw [happly] at hr
    simp only at hr
    unfold identifyFinalIm at hr
    by_cases hempty : (identifyRelatedSet t s sbd userData now).isEmpty
    · exfalso
      rw [List.isEmpty_iff.mp hempty] at hv
      simp at hv
    · rw [if_neg hempty] at hr
      exact updateIdentityWhereVidIn_mem hr hv
  case events =>
    intro e he hcase
    rw [happly] at he
    simp only at he
    rcases List.mem_append.mp he with he | he
    · unfold identifyUpdatedEvents at he
      by_cases hempty : (identifyRelatedSet t s sbd userData now).isEmpty
      · rw [if_pos hempty] at he
        rcases hcase with hc | hc
        · exact updateEventsIdentityIn_mem he (by simp [hc])
        · rw [List.isEmpty_iff.mp hempty] at hc
          simp at hc
      · rw [if_neg hempty] at he
        refine updateEventsIdentityIn_mem he ?_
        rcases hcase with hc | hc
        · exact List.mem_append.mpr (Or.inr (by simp [hc]))
        · exact List.mem_append.mpr (Or.inl hc)
    · have : e = mkIdentifyEvent sessionId s userData
          (latestGeo (identifyFinalIm t s sbd userData now) s.visitor_id) := by
        simpa using he
      rw [this]
      rfl
  case length =>
    rw [happly]
    simp only [List.length_append, List.length_singleton]
    unfold identifyUpdatedEvents
    by_cases hempty : (identifyRelatedSet t s sbd userData now).isEmpty
    · rw [if_pos hempty]
      unfold updateEventsIdentityIn
      rw [List.length_map]
    · rw [if_neg hempty]
      unfold updateEventsIdentityIn
      rw [List.length_map]
  case last =>
    refine ⟨latestGeo (identifyFinalIm t s sbd userData now) s.visitor_id, ?_⟩
    rw [happly]
    simp only
    exact List.getLast?_concat _

/-- Concrete instantiation of the amended C2 on the counterexample
store: the session captured address 1.1.1.1, so the related set is
empty there. -/
theorem c2_identify_propagation_witness :
    (sessionLookup c2Db "s1"
      = some { session_id := "s1", visitor_id := "v1", ip_address := "1.1.1.1"
               browser_details := some { browserName := "Chrome", os := "Linux" }
               confidence_score := none, identification_method := "fingerprint"
               created_at := 0 }) ∧
    (identifyEndpoint noOracle c2Db "s1" "doc" "" "" 100
      = ((identifyApply c2Db "s1"
            { session_id := "s1", visitor_id := "v1", ip_address := "1.1.1.1"
              browser_details := some { browserName := "Chrome", os := "Linux" }
              confidence_score := none, identification_method := "fingerprint"
              created_at := 0 }
            { browserName := "Chrome", os := "Linux" } "doc" 100).1,
         ApiResult.ok { identity := "doc",
                        relatedIdentitiesUpdated := (identifyApply c2Db "s1"
            { session_id := "s1", visitor_id := "v1", ip_address := "1.1.1.1"
              browser_details := some { browserName := "Chrome", os := "Linux" }
              confidence_score := none, identification_method := "fingerprint"
              created_at := 0 }
            { browserName := "Chrome", os := "Linux" } "doc" 100).2 })) :=
  ⟨by decide,
   (c2_identify_propagation noOracle c2Db "s1" "doc" "" "" 100
      { session_id := "s1", visitor_id := "v1", ip_address := "1.1.1.1"
        browser_details := some { browserName := "Chrome", os := "Linux" }
        confidence_score := none, identification_method := "fingerprint"
        created_at := 0 }
      (by decide)
      { browserName := "Chrome", os := "Linux" } (by decide)
      (Or.inl rfl)).1⟩

/-! C3: atomicity of the identify transaction. -/

/-- C3: the identify propagation is atomic: whatever statements fail,
the run leaves the store either untouched or carrying the full effect
of the transaction, and a failure at any of the six statements rolls
the store back to its initial state.  No partial propagation is
observable. -/
theorem c3_identify_atomicity (t : TenantDb) (sessionId : String) (s : SessionRow)
    (sbd : BrowserDetails) (doc : String) (now : Nat) (oks : List Bool) :
    (identifyTxnRun t sessionId s sbd doc now oks = t ∨
      identifyTxnRun t sessionId s sbd doc now oks
        = (identifyApply t sessionId s sbd doc now).1)
    ∧ ((∃ i, i < 6 ∧ oks.getD i true = false) →
        identifyTxnRun t sessionId s sbd doc now oks = t) := by
  by_cases h0 : oks.getD 0 true = false
  · have he : identifyTxnRun t sessionId s sbd doc now oks = t := by
      simp only [identifyTxnRun]
      rw [if_pos h0]
    exact ⟨Or.inl he, fun _ => he⟩
  · by_cases h1 : oks.getD 1 true = false
    · have he : identifyTxnRun t sessionId s sbd doc now oks = t := by
        simp only [identifyTxnRun]
        rw [if_neg h0, if_pos h1]
      exact ⟨Or.inl he, fun _ => he⟩
    · by_cases h2 : oks.getD 2 true = false
      · have he : identifyTxnRun t sessionId s sbd doc now oks = t := by
          simp only [identifyTxnRun]
          rw [if_neg h0, if_neg h1, if_pos h2]
        exact ⟨Or.inl he, fun _ => he⟩
      · by_cases h3 : oks.getD 3 true = false
        · have he : identifyTxnRun t sessionId s sbd doc now oks = t := by
            simp only [identifyTxnRun]
            rw [if_neg h0, if_neg h1, if_neg h2, if_pos h3]
          exact ⟨Or.inl he, fun _ => he⟩
        · by_cases h4 : oks.getD 4 true = false
          · have he : identifyTxnRun t sessionId s sbd doc now oks = t := by
              simp only [identifyTxnRun]
              rw [if_neg h0, if_neg h1, if_neg h2, if_neg h3, if_pos h4]
            exact ⟨Or.inl he, fun _ => he⟩
          · by_cases h5 : oks.getD 5 true = false
            · have he : identifyTxnRun t sessionId s sbd doc now oks = t := by
                simp only [identifyTxnRun]
                rw [if_neg h0, if_neg h1, if_neg h2, if_neg h3, if_neg h4, if_pos h5]
              exact ⟨Or.inl he, fun _ => he⟩
            · constructor
              · right
                simp only [identifyTxnRun, identifyApply]
                rw [if_neg h0, if_neg h1, if_neg h2, if_neg h3, if_neg h4, if_neg h5]
              · rintro ⟨i, hi, hfalse⟩
                interval_cases i <;> simp_all

/-- Concrete instantiation of C3: a failure at the second statement of
the transaction leaves the counterexample store untouched. -/
theorem c3_identify_atomicity_witness :
    identifyTxnRun c2Db "s1"
      { session_id := "s1", visitor_id := "v1", ip_address := "1.1.1.1"
        browser_details := some { browserName := "Chrome", os := "Linux" }
        confidence_score := none, identification_method := "fingerprint"
        created_at := 0 }
      { browserName := "Chrome", os := "Linux" } "doc" 100 [true, false] = c2Db :=
  (c3_identify_atomicity c2Db "s1"
      { session_id := "s1", visitor_id := "v1", ip_address := "1.1.1.1"
        browser_details := some { browserName := "Chrome", os := "Linux" }
        confidence_score := none, identification_method := "fingerprint"
        created_at := 0 }
      { browserName := "Chrome", os := "Linux" } "doc" 100 [true, false]).2
    ⟨1, by decide, by decide⟩

/-! C4: tenant identifier validation. -/

/-- C4: the claim is violated by the code: an inbound tenant identifier
containing characters far outside the alphanumeric-plus-underscore
allow-list passes the only check the endpoints perform (nonemptiness)
and is interpolated verbatim into the storage-addressing expression. -/
theorem c4_tenant_validation_missing :
    Tenant.specTenantAllowList "evil; DROP SCHEMA t CASCADE; --" = false ∧
    Tenant.endpointChecksTenant "evil; DROP SCHEMA t CASCADE; --" = true ∧
    Tenant.tenantTableExpr "evil; DROP SCHEMA t CASCADE; --" "identity_mappings"
      = "evil; DROP SCHEMA t CASCADE; --.identity_mappings" := by
  refine ⟨by decide, by decide, rfl⟩

/-! C5: session expiry on the track path. -/

/-- Store for the expired-session scenario: the only session was
created at time 0 and the track call happens 25 hours later. -/
def c5Db : TenantDb :=
  { identity_mappings := []
    session_mappings :=
      [ { session_id := "s1", visitor_id := "v1", ip_address := "1.1.1.1"
          browser_details := some { browserName := "Chrome", os := "Linux" }
          confidence_score := none, identification_method := "fingerprint"
          created_at := 0 } ]
    events := [] }

/-- Twenty-five hours in milliseconds. -/
def hours25 : Nat := 25 * 60 * 60 * 1000

/-- C5 is violated by the code: the track endpoint looks the session up
by session_id alone, so a session 25 hours old (which the validation
helper of db-utils itself classifies as expired) is accepted and an
Event row is persisted with a success response. -/
theorem c5_expired_session_tracked :
    DbUtils.validateSession c5Db.session_mappings "s1" hours25 = none ∧
    (sessionLookup c5Db "s1").isSome = true ∧
    ((trackEndpoint noOracle c5Db "s1" "page_visit" "props" "" "").1.events.length
      = c5Db.events.length + 1) ∧
    (((trackEndpoint noOracle c5Db "s1" "page_visit" "props" "" "").2)
      = ApiResult.ok
          { event :=
              { session_id := "s1", visitor_id := "v1", event_name := "page_visit"
                properties := "props", identity := none, ip_address := "1.1.1.1"
                browser_details := some { browserName := "Chrome", os := "Linux" }
                confidence_score := none, identification_method := "fingerprint"
                geolocation := none }
            matchType := none
            matchConfidence := none }) := by
  refine ⟨by decide, by decide, by decide, by decide⟩

/-! C6: the no-downgrade rule of the init upsert. -/

/-- C6: once a Visitor row carries a non-null identity document, the
session-initialization upsert never clears it nor replaces it: the
COALESCE arm keeps the stored document whatever value the insert
supplies. -/
theorem c6_no_downgrade (db : TenantDb) (vd : VisitorData) (mi : Option String)
    (now : Nat) (r : IdentityRow) (d : String)
    (huniq : ∀ r1 ∈ db.identity_mappings, ∀ r2 ∈ db.identity_mappings,
      r1.visitor_id = r2.visitor_id → r1 = r2)
    (hr : r ∈ db.identity_mappings) (hvid : r.visitor_id = vd.visitorId)
    (hd : r.identity = some d) :
    ∀ r1 ∈ (initUpsert db vd mi now).identity_mappings,
      r1.visitor_id = vd.visitorId → r1.identity = some d := by
  intro r1 hr1 hv1
  unfold initUpsert at hr1
  have hany : db.identity_mappings.any (fun x => decide (x.visitor_id = vd.visitorId))
      = true := by
    rw [List.any_eq_true]
    exact ⟨r, hr, by simp [hvid]⟩
  rw [if_pos hany] at hr1
  simp only at hr1
  obtain ⟨r0, hr0, heq⟩ := List.mem_map.mp hr1
  by_cases hc : r0.visitor_id = vd.visitorId
  · rw [if_pos hc] at heq
    have hr0r : r0 = r := huniq r0 hr0 r hr (by rw [hc, hvid])
    subst hr0r
    rw [← heq]
    simp [hd]
  · rw [if_neg hc] at heq
    rw [← heq] at hv1
    exact absurd hv1 hc

/-- Store with one visitor already carrying an identity document. -/
def c6Db : TenantDb :=
  { identity_mappings :=
      [ { visitor_id := "v1", ip_address := "1.1.1.1"
          browser_details := some { browserName := "Chrome", os := "Linux" }
          confidence_score := none, first_seen_at := 1, last_seen_at := 5
          geolocation := none, identification_method := "fingerprint"
          identity := some "old" } ]
    session_mappings := []
    events := [] }

/-- Visitor data for a re-initialization of v1 from a new address. -/
def c6Vd : VisitorData :=
  { visitorId := "v1", ip := "3.3.3.3"
    browserDetails := some { browserName := "Firefox", os := "Mac" }
    confidence := none, firstSeenAt := some 2, lastSeenAt := some 9
    geolocation := none }

theorem c6_no_downgrade_witness :
    ((∀ r1 ∈ c6Db.identity_mappings, ∀ r2 ∈ c6Db.identity_mappings,
        r1.visitor_id = r2.visitor_id → r1 = r2) ∧
      (∀ r1 ∈ (initUpsert c6Db c6Vd (some "fresh") 10).identity_mappings,
        r1.visitor_id = c6Vd.visitorId → r1.identity = some "old")) :=
  ⟨by decide,
   c6_no_downgrade c6Db c6Vd (some "fresh") 10
     { visitor_id := "v1", ip_address := "1.1.1.1"
       browser_details := some { browserName := "Chrome", os := "Linux" }
       confidence_score := none, first_seen_at := 1, last_seen_at := 5
       geolocation := none, identification_method := "fingerprint"
       identity := some "old" } "old"
     (by decide) (by decide) (by decide) (by decide)⟩

/-! C7: behaviour of the matcher when the backing lookup fails. -/

/-- The matcher handle over the C1 store with the backing lookup
failing. -/
def c7Db : Db := { tenant := c1Db, available := false }

/-- C7 as frozen is false on the code: with the backing lookup failing
on a store that does contain an exact fingerprint match, the matcher
catches the error and returns null, so the caller sees a plain
new-visitor outcome with confidence 1.0 instead of a store-unavailable
error. -/
theorem c7_counterexample :
    (∃ r ∈ c7Db.tenant.identity_mappings, r.visitor_id = "v1") ∧
    findExistingIdentity c7Db "v1" "1.1.1.1"
      (some { browserName := "Chrome", os := "Linux" }) = none ∧
    (initResolveOutcome (findExistingIdentity c7Db "v1" "1.1.1.1"
      (some { browserName := "Chrome", os := "Linux" }))).matchType = "new_visitor" ∧
    (initResolveOutcome (findExistingIdentity c7Db "v1" "1.1.1.1"
      (some { browserName := "Chrome", os := "Linux" }))).confidence = 1 := by
  refine ⟨by decide, rfl, rfl, ?_⟩
  have h : findExistingIdentity c7Db "v1" "1.1.1.1"
      (some { browserName := "Chrome", os := "Linux" }) = none := rfl
  rw [h]
  norm_num [initResolveOutcome]

/-- C7 amended: when the backing lookup fails, findExistingIdentity
catches the error and returns null, so the resolution degrades to a
new-visitor outcome with confidence 1.0 and no store-unavailable error
reaches the caller; the init transaction itself remains all-or-nothing,
so the visitor upsert is never partially applied. -/
theorem c7_lookup_failure_degrades (t : TenantDb) (vid ip : String)
    (bd : Option BrowserDetails) (vd : VisitorData) (mi : Option String)
    (sid : String) (now : Nat) (oks : List Bool) :
    findExistingIdentity { tenant := t, available := false } vid ip bd = none
    ∧ (initResolveOutcome (findExistingIdentity { tenant := t, available := false }
        vid ip bd)).matchType = "new_visitor"
    ∧ (initResolveOutcome (findExistingIdentity { tenant := t, available := false }
        vid ip bd)).confidence = 1
    ∧ (initTxnRun t vd mi sid now oks = t ∨
        initTxnRun t vd mi sid now oks = initApply t vd mi sid now) := by
  have h : findExistingIdentity { tenant := t, available := false } vid ip bd = none := rfl
  refine ⟨h, by rw [h]; rfl, by rw [h]; norm_num [initResolveOutcome], ?_⟩
  by_cases h0 : oks.getD 0 true = false
  · left
    simp only [initTxnRun]
    rw [if_pos h0]
  · by_cases h1 : oks.getD 1 true = false
    · left
      simp only [initTxnRun]
      rw [if_neg h0, if_pos h1]
    · right
      simp only [initTxnRun, initApply]
      rw [if_neg h0, if_neg h1]

/-! C8: the identity cache is not invalidated by propagation. -/

/-- Row carrying the pre-propagation identity document. -/
def c8Row : IdentityRow :=
  { visitor_id := "v1", ip_address := "1.1.1.1"
    browser_details := some { browserName := "Chrome", os := "Linux" }
    confidence_score := none, first_seen_at := 0, last_seen_at := 1
    geolocation := none, identification_method := "fingerprint"
    identity := some "old" }

/-- C8 is violated by the code: updateIdentity never touches the
identity cache, so after a successful propagation the cache still holds
the entry for the touched visitor and a read within the
time-to-live returns the pre-propagation identity document. -/
theorem c8_stale_cache_after_update :
    (DbUtils.updateIdentity
        { identity_mappings := [c8Row], events := []
          cache := (DbUtils.getIdentityByVisitorId [c8Row] [] "v1" 1000).2 }
        "v1" "new" [] 2000).cache
      = (DbUtils.getIdentityByVisitorId [c8Row] [] "v1" 1000).2 ∧
    (DbUtils.cacheGet
      (DbUtils.updateIdentity
        { identity_mappings := [c8Row], events := []
          cache := (DbUtils.getIdentityByVisitorId [c8Row] [] "v1" 1000).2 }
        "v1" "new" [] 2000).cache "visitor_v1").isSome = true ∧
    (DbUtils.updateIdentity
        { identity_mappings := [c8Row], events := []
          cache := (DbUtils.getIdentityByVisitorId [c8Row] [] "v1" 1000).2 }
        "v1" "new" [] 2000).identity_mappings.map (fun r => r.identity)
      = [some "new"] ∧
    ((DbUtils.getIdentityByVisitorId
        (DbUtils.updateIdentity
          { identity_mappings := [c8Row], events := []
            cache := (DbUtils.getIdentityByVisitorId [c8Row] [] "v1" 1000).2 }
          "v1" "new" [] 2000).identity_mappings
        (DbUtils.updateIdentity
          { identity_mappings := [c8Row], events := []
            cache := (DbUtils.getIdentityByVisitorId [c8Row] [] "v1" 1000).2 }
          "v1" "new" [] 2000).cache
        "v1" 3000).1.map (fun r => r.identity))
      = some (some "old") := by
  refine ⟨by decide, by decide, by decide, by decide⟩

/-! C9: tenant isolation. -/

theorem lookupByVisitorId_mem {db : TenantDb} {vid : String} {r : IdentityRow}
    (h : lookupByVisitorId db vid = some r) : r ∈ db.identity_mappings := by
  unfold lookupByVisitorId at h
  cases hs : sortByLastSeenDesc
      (db.identity_mappings.filter (fun x => decide (x.visitor_id = vid))) with
  | nil => rw [hs] at h; cases h
  | cons a l =>
    rw [hs] at h
    have har : a = r := by
      simpa using h
    have ha : a ∈ sortByLastSeenDesc
        (db.identity_mappings.filter (fun x => decide (x.visitor_id = vid))) := by
      rw [hs]; exact List.mem_cons_self a l
    rw [← har]
    exact (List.mem_filter.mp (mem_sortByLastSeenDesc.mp ha)).1

/-- Every match the tiered matcher returns is assembled from a row of
the partition it was given. -/
theorem findExistingIdentityOk_from_store {db : TenantDb} {vid ip : String}
    {bd : Option BrowserDetails} {m : MatchResult}
    (h : findExistingIdentityOk db vid ip bd = some m) :
    ∃ r ∈ db.identity_mappings, m = mkMatch r m.matchType m.confidence := by
  unfold findExistingIdentityOk at h
  cases hl : lookupByVisitorId db vid with
  | some r =>
    rw [hl] at h
    simp only [Option.some.injEq] at h
    refine ⟨r, lookupByVisitorId_mem hl, ?_⟩
    rw [← h]
    rfl
  | none =>
    rw [hl] at h
    cases hrows : rowsByIp db ip with
    | nil =>
      rw [hrows] at h
      cases h
    | cons r0 rest =>
      rw [hrows] at h
      have hr0 : r0 ∈ db.identity_mappings := by
        have : r0 ∈ rowsByIp db ip := by rw [hrows]; exact List.mem_cons_self r0 rest
        exact (mem_rowsByIp.mp this).1
      cases bd with
      | none =>
        simp only [Option.some.injEq] at h
        refine ⟨r0, hr0, ?_⟩
        rw [← h]
        rfl
      | some b =>
        simp only at h
        cases hf : (rowsByIp db ip).find? (fun x => matchesSig x b) with
        | some w =>
          rw [hrows] at hf
          rw [hf] at h
          simp only [Option.some.injEq] at h
          have hw : w ∈ db.identity_mappings := by
            have : w ∈ rowsByIp db ip := by
              rw [hrows]
              exact List.mem_of_find?_eq_some hf
            exact (mem_rowsByIp.mp this).1
          refine ⟨w, hw, ?_⟩
          rw [← h]
          rfl
        | none =>
          rw [hrows] at hf
          rw [hf] at h
          simp only [Option.some.injEq] at h
          refine ⟨r0, hr0, ?_⟩
          rw [← h]
          rfl

/-- C9: tenant isolation: an identify call addressed to one tenant
leaves every other partition untouched; the matcher result for one
tenant is unchanged whatever another partition holds (so a visitor_id
present in two tenants never makes one resolution read the other); and
every returned match is assembled from a row of the addressed
partition. -/
theorem c9_tenant_isolation (oracle : Oracle) (g : Tenant.GlobalStore)
    (t1 t2 : String) (hne : t1 ≠ t2)
    (sessionId userData requestId visitorId vid ip : String)
    (bd : Option BrowserDetails) (now : Nat) :
    ((Tenant.identifyGlobal oracle g t1 sessionId userData requestId visitorId now).1 t2
      = g t2)
    ∧ (∀ db2 : TenantDb,
        findExistingIdentityOk (Function.update g t2 db2 t1) vid ip bd
          = findExistingIdentityOk (g t1) vid ip bd)
    ∧ (∀ m : MatchResult, findExistingIdentityOk (g t1) vid ip bd = some m →
        ∃ r ∈ (g t1).identity_mappings, m = mkMatch r m.matchType m.confidence) := by
  refine ⟨?writes, ?reads, ?fromStore⟩
  case writes =>
    unfold Tenant.identifyGlobal
    by_cases ht : t1 = ""
    · rw [if_pos ht]
    · rw [if_neg ht]
      simp only
      exact Function.update_noteq (Ne.symm hne) _ g
  case reads =>
    intro db2
    rw [Function.update_noteq hne db2 g]
  case fromStore =>
    intro m h
    exact findExistingIdentityOk_from_store h

theorem c9_tenant_isolation_witness :
    ("acme" : String) ≠ "globex" ∧
    (((Tenant.identifyGlobal noOracle (fun _ => c2Db) "acme" "s1" "doc" "" "" 100).1 "globex"
      = (fun _ => c2Db) "globex")
    ∧ (∀ db2 : TenantDb,
        findExistingIdentityOk (Function.update (fun _ => c2Db) "globex" db2 "acme")
          "v1" "1.1.1.1" (some { browserName := "Chrome", os := "Linux" })
          = findExistingIdentityOk ((fun _ => c2Db) "acme") "v1" "1.1.1.1"
              (some { browserName := "Chrome", os := "Linux" }))
    ∧ (∀ m : MatchResult,
        findExistingIdentityOk ((fun _ => c2Db) "acme") "v1" "1.1.1.1"
          (some { browserName := "Chrome", os := "Linux" }) = some m →
        ∃ r ∈ ((fun _ => c2Db) "acme").identity_mappings,
          m = mkMatch r m.matchType m.confidence)) :=
  ⟨by decide,
   c9_tenant_isolation noOracle (fun _ => c2Db) "acme" "globex" (by decide)
     "s1" "doc" "" "" "v1" "1.1.1.1"
     (some { browserName := "Chrome", os := "Linux" }) 100⟩

/-! C10: oracle outage during proof verification. -/

/-- C10: verifyVisitorId is total over oracle failures: a thrown oracle
call yields false, and in the track and identify paths a supplied proof
with a failing oracle is reported as a 403 verification failure with
the store left untouched, never as a store error. -/
theorem c10_oracle_outage (oracle : Oracle) (t : TenantDb)
    (sessionId eventName properties userData requestId visitorId : String)
    (now : Nat) (s : SessionRow)
    (hfail : oracle requestId = Except.error ())
    (hrid : requestId ≠ "") (hvid : visitorId ≠ "")
    (hs : sessionLookup t sessionId = some s) :
    verifyVisitorId oracle requestId visitorId = false
    ∧ trackEndpoint oracle t sessionId eventName properties requestId visitorId
        = (t, ApiResult.forbidden "Invalid visitor ID")
    ∧ identifyEndpoint oracle t sessionId userData requestId visitorId now
        = (t, ApiResult.forbidden "Invalid visitor ID") := by
  have hverify : verifyVisitorId oracle requestId visitorId = false := by
    unfold verifyVisitorId
    rw [hfail]
  refine ⟨hverify, ?track, ?identify⟩
  case track =>
    have htrack : trackEndpoint oracle t sessionId eventName properties requestId visitorId
        = (if requestId ≠ "" ∧ visitorId ≠ "" then
            if verifyVisitorId oracle requestId visitorId = true then
              trackInsert t s sessionId eventName properties
            else (t, ApiResult.forbidden "Invalid visitor ID")
          else trackInsert t s sessionId eventName properties) := by
      unfold trackEndpoint
      rw [hs]
    rw [htrack, if_pos (And.intro hrid hvid), hverify,
      if_neg Bool.false_ne_true]
  case identify =>
    have hident : identifyEndpoint oracle t sessionId userData requestId visitorId now
        = (if requestId ≠ "" ∧ visitorId ≠ "" then
            if verifyVisitorId oracle requestId visitorId = true then
              runIdentify t sessionId s userData now
            else (t, ApiResult.forbidden "Invalid visitor ID")
          else runIdentify t sessionId s userData now) := by
      unfold identifyEndpoint
      rw [hs]
    rw [hident, if_pos (And.intro hrid hvid), hverify,
      if_neg Bool.false_ne_true]

theorem c10_oracle_outage_witness :
    (noOracle "req1" = Except.error () ∧ ("req1" : String) ≠ "" ∧
      ("v1" : String) ≠ "" ∧ (sessionLookup c5Db "s1").isSome = true) ∧
    (verifyVisitorId noOracle "req1" "v1" = false
    ∧ trackEndpoint noOracle c5Db "s1" "click" "props" "req1" "v1"
        = (c5Db, ApiResult.forbidden "Invalid visitor ID")
    ∧ identifyEndpoint noOracle c5Db "s1" "doc" "req1" "v1" 50
        = (c5Db, ApiResult.forbidden "Invalid visitor ID")) :=
  ⟨⟨rfl, by decide, by decide, by decide⟩,
   c10_oracle_outage noOracle c5Db "s1" "click" "props" "doc" "req1" "v1" 50
     { session_id := "s1", visitor_id := "v1", ip_address := "1.1.1.1"
       browser_details := some { browserName := "Chrome", os := "Linux" }
       confidence_score := none, identification_method := "fingerprint"
       created_at := 0 }
     rfl (by decide) (by decide) (by decide)⟩

end EventTracking
